import Mathlib

/-!
Shallow embedding of `src/main.py` (nanobot-worker), a FastAPI relay with four
endpoints: `/solve-pdf`, `/screenshot`, `/generate-image`, `/voiceover`.

Each handler is embedded as a pure function from the process configuration,
the parsed request, and the upstream provider's response (an oracle input,
since the network is external) to the trace of outbound-call effects together
with the handler's outcome.  The outbound JSON/multipart bodies are abstracted
to the target URL (and query parameters where the source builds an explicit
params dict), since no claim concerns the bodies; `temperature` (a float) and
`max_tokens` enter only that unmodeled body and are omitted.
-/

namespace NanobotWorker

/-- Process environment credentials read in `main.py`.  `GEMINI_API_KEY`,
`ELEVENLABS_API_KEY` and `POLLINATIONS_API_KEY` are read at import time
(lines 24-26; `os.getenv(..., "")`, so an unset variable is the empty
string); `SCREENSHOTONE_KEY` is read inside the screenshot handler
(line 192).  `POLLINATIONS_API_KEY` is never used by any handler. -/
structure Config where
  GEMINI_API_KEY : String
  ELEVENLABS_API_KEY : String
  SCREENSHOTONE_KEY : String
  POLLINATIONS_API_KEY : String
deriving DecidableEq

/-- An observable side effect of a handler: reading the uploaded file's
contents, or issuing the single outbound HTTP call (identified by URL, plus
the explicit query-params dict where the source builds one). -/
inductive Effect
  | readFile
  | httpPost (url : String)
  | httpGet (url : String) (params : List (String × String))
deriving DecidableEq

/-- The response of the single outbound HTTP call: HTTP status, the raw body
as text (used in error details), the raw body bytes (streamed back to the
caller on success), and, for the Gemini endpoint, the parsed JSON body. -/
structure HttpResp (β : Type) where
  status : Nat
  text : String
  content : List Nat
  body : β
deriving DecidableEq

/-- Outcome of the outbound call: either `httpx.TimeoutException` or a
response. -/
inductive UpstreamResult (β : Type)
  | timeout
  | resp (r : HttpResp β)
deriving DecidableEq

/-- A FastAPI `UploadFile`: the declared MIME type (`content_type`, which may
be absent) and the file bytes obtained by `await file.read()`. -/
structure UploadedFile where
  content_type : Option String
  contents : List Nat
deriving DecidableEq

/-! ### Gemini response JSON model (solve-pdf upstream)

The handler duck-types the parsed JSON: `"candidates" in result`,
`"content" in candidate`, `"parts" in candidate["content"]`,
`"text" in part`, `result.get("usageMetadata", {}).get("totalTokenCount", 0)`.
Each possibly-absent key is an `Option` field. -/

/-- One element of `candidate["content"]["parts"]`; `"text"` may be absent. -/
structure GeminiPart where
  text : Option String
deriving DecidableEq

/-- The `candidate["content"]` object; `"parts"` may be absent. -/
structure GeminiContent where
  parts : Option (List GeminiPart)
deriving DecidableEq

/-- One element of `result["candidates"]`; `"content"` may be absent. -/
structure GeminiCandidate where
  content : Option GeminiContent
deriving DecidableEq

/-- The `result["usageMetadata"]` object; `"totalTokenCount"` may be absent. -/
structure GeminiUsage where
  totalTokenCount : Option Nat
deriving DecidableEq

/-- The parsed Gemini JSON body: `"candidates"` and `"usageMetadata"` may be
absent. -/
structure GeminiResponse where
  candidates : Option (List GeminiCandidate)
  usageMetadata : Option GeminiUsage
deriving DecidableEq

/-- Result of the `/solve-pdf` handler: an `HTTPException` (status, detail)
or the success JSON `{"success": ..., "answer": ..., "model": ...,
"tokens_used": ...}` (main.py lines 163-168). -/
inductive SolvePdfResult
  | error (status : Nat) (detail : String)
  | ok (success : Bool) (answer : String) (model : String) (tokens_used : Nat)
deriving DecidableEq

/-- Result of a binary endpoint (screenshot / generate-image / voiceover):
an `HTTPException` or a `StreamingResponse` with the streamed bytes, the
declared media type, and the attachment filename. -/
inductive BinaryResult
  | error (status : Nat) (detail : String)
  | stream (content : List Nat) (media_type : String) (filename : String)
deriving DecidableEq

/-- The validity test behind main.py line 107:
`if not file.content_type or not file.content_type.startswith("application/pdf")`.
Python `not` on a string is true for `None` and for the empty string;
`startswith` is modeled at the character level. -/
def pdfTypeOk : Option String → Bool
  | none => false
  | some ct => ct ≠ "" && "application/pdf".data.isPrefixOf ct.data

/-- The Gemini endpoint URL with the key in the query (main.py line 120). -/
def geminiUrl (cfg : Config) : String :=
  "https://generativelanguage.googleapis.com/v1beta/models/gemini-1.5-flash:generateContent?key="
    ++ cfg.GEMINI_API_KEY

/-- Text extraction from the Gemini JSON (main.py lines 149-161): if
`candidates` is present and nonempty, take candidate 0; if it has
`content.parts`, join the `"text"` fields of the parts that have one with
newlines; the string literals are the source's fallback sentinels. -/
def extractAnswer (result : GeminiResponse) : String :=
  match result.candidates with
  | some (candidate :: _) =>
    match candidate.content with
    | some content =>
      match content.parts with
      | some parts => String.intercalate "\n" (parts.filterMap (fun p => p.text))
      | none => "No answer generated"
    | none => "No answer generated"
  | _ => "No response from Gemini"

/-- The `tokens_used` field (main.py line 167):
`result.get("usageMetadata", {}).get("totalTokenCount", 0)`. -/
def tokensUsed (result : GeminiResponse) : Nat :=
  match result.usageMetadata with
  | some u => u.totalTokenCount.getD 0
  | none => 0

/-- The `/solve-pdf` handler (main.py lines 89-176).  `question` enters only
the unmodeled outbound JSON body.  Order of checks: missing
`GEMINI_API_KEY` fails 500 first; then a non-PDF `content_type` fails 400;
only then is the file read and the outbound POST issued. -/
def solve_pdf (cfg : Config) (file : UploadedFile) (_question : String)
    (up : UpstreamResult GeminiResponse) : List Effect × SolvePdfResult :=
  if cfg.GEMINI_API_KEY = "" then
    ([], .error 500 "GEMINI_API_KEY not configured")
  else if ¬ pdfTypeOk file.content_type then
    ([], .error 400 "File must be a PDF")
  else
    let effects := [Effect.readFile, Effect.httpPost (geminiUrl cfg)]
    match up with
    | .timeout => (effects, .error 504 "Gemini API timeout")
    | .resp r =>
      if r.status ≠ 200 then
        (effects, .error 500 ("Gemini API error: " ++ r.text))
      else
        (effects, .ok true (extractAnswer r.body) "gemini-1.5-flash" (tokensUsed r.body))

/-- The `/screenshot` request model (main.py lines 29-33).  The pydantic
`HttpUrl` is kept as the string the handler interpolates with `str(...)`. -/
structure ScreenshotRequest where
  url : String
  width : Int := 1920
  height : Int := 1080
  full_page : Bool := false
deriving DecidableEq

/-- Provider selection and query construction for `/screenshot` (main.py
lines 192-214): a nonempty `SCREENSHOTONE_KEY` selects screenshotone.com,
otherwise the demo provider shot.screenshotapi.net with the literal token
`DEMO_TOKEN`.  Non-string param values are rendered the way httpx serializes
primitives (ints as decimal, bools lowercase). -/
def screenshotRequestParams (key : String) (req : ScreenshotRequest) :
    String × List (String × String) :=
  if key ≠ "" then
    ("https://api.screenshotone.com/take",
      [("access_key", key), ("url", req.url),
       ("viewport_width", toString req.width), ("viewport_height", toString req.height),
       ("full_page", if req.full_page then "true" else "false"), ("format", "png")])
  else
    ("https://shot.screenshotapi.net/screenshot",
      [("token", "DEMO_TOKEN"), ("url", req.url),
       ("width", toString req.width), ("height", toString req.height),
       ("output", "image"), ("file_type", "png")])

/-- The `/screenshot` handler (main.py lines 179-235).  The first component
is the trace of emitted log messages: the handler body contains no print or
logging statement, so it is always empty.  Both providers are called with a
GET; a 200 streams the bytes as `image/png`, any other status maps to 500,
a timeout to 504. -/
def capture_screenshot (cfg : Config) (req : ScreenshotRequest)
    (up : UpstreamResult Unit) : List String × List Effect × BinaryResult :=
  let (api_url, params) := screenshotRequestParams cfg.SCREENSHOTONE_KEY req
  match up with
  | .timeout => ([], [Effect.httpGet api_url params], .error 504 "Screenshot service timeout")
  | .resp r =>
    ([], [Effect.httpGet api_url params],
      if r.status = 200 then .stream r.content "image/png" "screenshot.png"
      else .error 500 ("Screenshot service error: " ++ r.text))

/-- The `/generate-image` request model (main.py lines 35-40). -/
structure ImageGenerationRequest where
  prompt : String
  width : Int := 1024
  height : Int := 1024
  seed : Option Int := none
  model : String := "flux"
deriving DecidableEq

/-- Python `str.replace(pat, rep)` semantics on character lists: scan left
to right, replacing each non-overlapping occurrence of `pat`.  The `skip`
counter consumes the tail of a just-matched occurrence, keeping the
recursion structural.  (Used only with the nonempty pattern `" "`, matching
`request.prompt.replace(" ", "%20")` at main.py line 251.) -/
def pyReplaceGo (pat rep : List Char) : Nat → List Char → List Char
  | _, [] => []
  | k + 1, _ :: cs => pyReplaceGo pat rep k cs
  | 0, c :: cs =>
    if pat.isPrefixOf (c :: cs) then
      rep ++ pyReplaceGo pat rep (pat.length - 1) cs
    else
      c :: pyReplaceGo pat rep 0 cs

/-- Python `s.replace(pat, rep)` on strings (left-to-right, non-overlapping
occurrences). -/
def pyReplace (pat rep s : String) : String :=
  String.mk (pyReplaceGo pat.data rep.data 0 s.data)

/-- `encoded_prompt = request.prompt.replace(" ", "%20")` (main.py
line 251). -/
def encoded_prompt (prompt : String) : String :=
  pyReplace " " "%20" prompt

/-- `seed_param = f"&seed={request.seed}" if request.seed else ""` (main.py
line 252).  Python truthiness: `None` and `0` are falsy, every other int is
truthy. -/
def seed_param : Option Int → String
  | none => ""
  | some s => if s = 0 then "" else "&seed=" ++ toString s

/-- The Pollinations URL built at main.py lines 254-257. -/
def image_url (req : ImageGenerationRequest) : String :=
  "https://image.pollinations.ai/prompt/" ++ encoded_prompt req.prompt
    ++ "?width=" ++ toString req.width ++ "&height=" ++ toString req.height
    ++ "&nologo=true" ++ seed_param req.seed

/-- The `/generate-image` handler (main.py lines 238-277).  It consults no
credential (`POLLINATIONS_API_KEY` is never read here) and performs no
validation before the outbound GET; a 200 streams the bytes as `image/png`,
any other status maps to 500 with the status code in the detail, a timeout
to 504. -/
def generate_image (req : ImageGenerationRequest) (up : UpstreamResult Unit) :
    List Effect × BinaryResult :=
  match up with
  | .timeout => ([Effect.httpGet (image_url req) []], .error 504 "Image generation timeout")
  | .resp r =>
    ([Effect.httpGet (image_url req) []],
      if r.status = 200 then .stream r.content "image/png" "generated_image.png"
      else .error 500 ("Image generation error: " ++ toString r.status))

/-- The `/voiceover` request model (main.py lines 42-45). -/
structure VoiceoverRequest where
  text : String
  voice_id : Option String := some "21m00Tcm4TlvDq8ikWAM"
  model_id : String := "eleven_multilingual_v2"
deriving DecidableEq

/-- Python `f"{x}"` on an `Optional[str]`: `None` renders as `"None"`. -/
def pyStr : Option String → String
  | some s => s
  | none => "None"

/-- The ElevenLabs URL (main.py line 298). -/
def elevenlabsUrl (req : VoiceoverRequest) : String :=
  "https://api.elevenlabs.io/v1/text-to-speech/" ++ pyStr req.voice_id

/-- The `/voiceover` handler (main.py lines 280-328).  Order of checks:
missing `ELEVENLABS_API_KEY` fails 500 first; then text longer than 5000
characters fails 400; only then is the outbound POST issued.  A 200 streams
the bytes as `audio/mpeg`, any other status maps to 500, a timeout to 504. -/
def generate_voiceover (cfg : Config) (req : VoiceoverRequest)
    (up : UpstreamResult Unit) : List Effect × BinaryResult :=
  if cfg.ELEVENLABS_API_KEY = "" then
    ([], .error 500 "ELEVENLABS_API_KEY not configured")
  else if req.text.length > 5000 then
    ([], .error 400 "Text too long (max 5000 chars)")
  else
    match up with
    | .timeout => ([Effect.httpPost (elevenlabsUrl req)], .error 504 "Voiceover generation timeout")
    | .resp r =>
      ([Effect.httpPost (elevenlabsUrl req)],
        if r.status = 200 then .stream r.content "audio/mpeg" "voiceover.mp3"
        else .error 500 ("ElevenLabs API error: " ++ r.text))

/-! ### Specification-side definitions (stated from the spec's words, for
comparison with the source embeddings above) -/

/-- Stated from the spec: the answer obtained by walking the provider's
nested candidate/content/parts structure and concatenating (with the
handler's separator) all text fragments of ALL candidates. -/
def allCandidatesAnswer (result : GeminiResponse) : String :=
  String.intercalate "\n"
    ((result.candidates.getD []).flatMap
      (fun c => ((c.content.bind (fun ctn => ctn.parts)).getD []).filterMap
        (fun p => p.text)))

/-- Stated from the spec: percent-encode exactly the space characters of a
string (each `' '` becomes `"%20"`), leaving every other character
verbatim. -/
def spaceOnlyPercentEncode (s : String) : String :=
  String.mk (s.data.flatMap (fun c => if c = ' ' then ['%', '2', '0'] else [c]))

/-- Substring test on character lists: does `needle` occur contiguously in
`hay`? -/
def containsSub (needle : List Char) : List Char → Bool
  | [] => needle.isEmpty
  | c :: t => needle.isPrefixOf (c :: t) || containsSub needle t

/-! ### Shared concrete instances used by witnesses and counterexamples -/

/-- A configuration with every credential unset (every `os.getenv` default). -/
def cfgUnset : Config := ⟨"", "", "", ""⟩

/-- A configuration with the Gemini, ElevenLabs and ScreenshotOne
credentials set. -/
def cfgFull : Config := ⟨"g-key", "e-key", "s-key", ""⟩

/-- A PDF-typed upload. -/
def pdfFile : UploadedFile := ⟨some "application/pdf", [37, 80, 68, 70]⟩

/-- A screenshot request with the model's default viewport. -/
def sreq0 : ScreenshotRequest := ⟨"https://example.com/", 1920, 1080, false⟩

/-- A voiceover request with short text. -/
def vreq0 : VoiceoverRequest := ⟨"hello", some "21m00Tcm4TlvDq8ikWAM", "eleven_multilingual_v2"⟩

/-- The spec's end-to-end image-generation request:
`{"prompt": "a red fox", "width": 512, "height": 512, "seed": 7}`. -/
def c5req : ImageGenerationRequest := ⟨"a red fox", 512, 512, some 7, "flux"⟩

/-- A non-PDF-typed upload. -/
def pngFile : UploadedFile := ⟨some "image/png", [1, 2, 3]⟩

/-- A parsed Gemini body whose `candidates` list is present but empty. -/
def noCandidates : GeminiResponse := ⟨some [], none⟩

/-- A parsed Gemini body with two well-formed candidates, carrying the text
parts "A" and "B" respectively. -/
def twoCandidates : GeminiResponse :=
  ⟨some [⟨some ⟨some [⟨some "A"⟩]⟩⟩, ⟨some ⟨some [⟨some "B"⟩]⟩⟩], none⟩

/-- A 5001-character text, one over the voiceover limit. -/
def longText : String := String.mk (List.replicate 5001 'x')

/-! ### Helper lemmas -/

/-- Replacing the single-character pattern `" "` maps each character
independently: a space becomes `['%', '2', '0']`, anything else is kept. -/
theorem pyReplaceGo_space (l : List Char) :
    pyReplaceGo [' '] ['%', '2', '0'] 0 l
      = l.flatMap (fun c => if c = ' ' then ['%', '2', '0'] else [c]) := by
  induction l with
  | nil => rfl
  | cons c cs ih =>
    by_cases hc : c = ' '
    · subst hc
      simp [pyReplaceGo, List.isPrefixOf, ih]
    · simp [pyReplaceGo, List.isPrefixOf, hc, Ne.symm hc, ih]

/-! ### Claims -/

/-- C1, counterexample.  The claim quantifies over every endpoint, but with
every credential unset a `/screenshot` request does not fail with a
configuration error: the handler still issues the outbound GET, to the demo
provider `shot.screenshotapi.net` with the literal token `DEMO_TOKEN`.  So
the outbound-effect trace is nonempty, refuting "no outbound HTTP call to
the external provider is attempted". -/
theorem c1_counterexample :
    (capture_screenshot cfgUnset sreq0 UpstreamResult.timeout).2.1
      = [Effect.httpGet "https://shot.screenshotapi.net/screenshot"
          [("token", "DEMO_TOKEN"), ("url", "https://example.com/"),
           ("width", "1920"), ("height", "1080"),
           ("output", "image"), ("file_type", "png")]]
    ∧ (capture_screenshot cfgUnset sreq0 UpstreamResult.timeout).2.1 ≠ [] :=
  ⟨rfl, by decide⟩

/-- C1, amended: only the solve-pdf and voiceover endpoints fail fast (with
status 500 and a "not configured" detail, and no outbound call) when their
credential is unset; the screenshot endpoint instead falls back to the demo
provider and still attempts the outbound call, and generate-image consults
no credential at all. -/
theorem c1_amended_thm (cfg : Config) (file : UploadedFile) (q : String)
    (upg : UpstreamResult GeminiResponse) (vreq : VoiceoverRequest)
    (upv : UpstreamResult Unit) (sreq : ScreenshotRequest) (ups : UpstreamResult Unit) :
    (cfg.GEMINI_API_KEY = "" →
      solve_pdf cfg file q upg = ([], .error 500 "GEMINI_API_KEY not configured"))
    ∧ (cfg.ELEVENLABS_API_KEY = "" →
      generate_voiceover cfg vreq upv = ([], .error 500 "ELEVENLABS_API_KEY not configured"))
    ∧ (cfg.SCREENSHOTONE_KEY = "" →
      (capture_screenshot cfg sreq ups).2.1
        = [Effect.httpGet "https://shot.screenshotapi.net/screenshot"
            [("token", "DEMO_TOKEN"), ("url", sreq.url),
             ("width", toString sreq.width), ("height", toString sreq.height),
             ("output", "image"), ("file_type", "png")]]) := by
  refine ⟨fun h => ?_, fun h => ?_, fun h => ?_⟩
  · simp [solve_pdf, h]
  · simp [generate_voiceover, h]
  · cases ups <;> simp [capture_screenshot, screenshotRequestParams, h]

/-- C1, witness for the amended theorem, at the all-unset configuration. -/
theorem c1_witness :
    solve_pdf cfgUnset pdfFile "q" UpstreamResult.timeout
      = ([], .error 500 "GEMINI_API_KEY not configured")
    ∧ generate_voiceover cfgUnset vreq0 UpstreamResult.timeout
      = ([], .error 500 "ELEVENLABS_API_KEY not configured")
    ∧ (capture_screenshot cfgUnset sreq0 UpstreamResult.timeout).2.1
      = [Effect.httpGet "https://shot.screenshotapi.net/screenshot"
          [("token", "DEMO_TOKEN"), ("url", "https://example.com/"),
           ("width", "1920"), ("height", "1080"),
           ("output", "image"), ("file_type", "png")]] := by
  have h := c1_amended_thm cfgUnset pdfFile "q" UpstreamResult.timeout vreq0
    UpstreamResult.timeout sreq0 UpstreamResult.timeout
  exact ⟨h.1 rfl, h.2.1 rfl, h.2.2 rfl⟩

/-- C2, counterexample.  On a 200 upstream response with an empty
`candidates` list the handler does return a successful result, but its
answer is the source's sentinel `"No response from Gemini"`, which is not
the text `"no answer"` the claim names. -/
theorem c2_counterexample :
    (solve_pdf cfgFull pdfFile "q" (UpstreamResult.resp ⟨200, "", [], noCandidates⟩)).2
      = SolvePdfResult.ok true "No response from Gemini" "gemini-1.5-flash" 0
    ∧ "No response from Gemini" ≠ "no answer" :=
  ⟨rfl, by decide⟩

/-- C2, amended: for every solve-pdf request whose upstream 200 response
contains no candidates (key absent or empty list), the endpoint returns a
successful result (not an error) whose answer is the sentinel text
`"No response from Gemini"`. -/
theorem c2_amended_thm (cfg : Config) (file : UploadedFile) (q t : String)
    (bytes : List Nat) (r : GeminiResponse)
    (hk : cfg.GEMINI_API_KEY ≠ "") (hct : pdfTypeOk file.content_type = true)
    (hc : r.candidates = none ∨ r.candidates = some []) :
    (solve_pdf cfg file q (UpstreamResult.resp ⟨200, t, bytes, r⟩)).2
      = SolvePdfResult.ok true "No response from Gemini" "gemini-1.5-flash" (tokensUsed r) := by
  have ha : extractAnswer r = "No response from Gemini" := by
    rcases hc with h | h <;> simp [extractAnswer, h]
  simp [solve_pdf, hk, hct, ha]

/-- C2, witness for the amended theorem. -/
theorem c2_witness :
    (solve_pdf cfgFull pdfFile "q" (UpstreamResult.resp ⟨200, "", [], noCandidates⟩)).2
      = SolvePdfResult.ok true "No response from Gemini" "gemini-1.5-flash"
          (tokensUsed noCandidates) :=
  c2_amended_thm cfgFull pdfFile "q" "" [] noCandidates (by decide) (by decide) (Or.inr rfl)

/-- C3: for every voiceover request longer than 5000 characters (with the
speech-synthesis credential configured, so that the earlier credential check
does not fire first), the handler fails with status 400 and detail
"Text too long (max 5000 chars)", and the effect trace is empty — no
outbound HTTP call to the provider is attempted. -/
theorem c3_voiceover_length_validation (cfg : Config) (req : VoiceoverRequest)
    (up : UpstreamResult Unit) (hk : cfg.ELEVENLABS_API_KEY ≠ "")
    (hlen : req.text.length > 5000) :
    generate_voiceover cfg req up = ([], .error 400 "Text too long (max 5000 chars)") := by
  simp [generate_voiceover, hk, hlen]

/-- C3, witness at a 5001-character text. -/
theorem c3_witness :
    generate_voiceover cfgFull ⟨longText, some "v", "m"⟩ UpstreamResult.timeout
      = ([], .error 400 "Text too long (max 5000 chars)") :=
  c3_voiceover_length_validation cfgFull ⟨longText, some "v", "m"⟩
    UpstreamResult.timeout (by decide)
    (by show longText.length > 5000
        rw [longText, String.length_mk, List.length_replicate]
        omega)

/-- C4, counterexample.  On a 200 upstream response with two candidates
carrying texts "A" and "B", the handler's answer is "A": only candidate 0 is
walked (main.py line 150), so the second candidate's text does not
contribute, while the claimed all-candidates concatenation is "A\nB". -/
theorem c4_counterexample :
    (solve_pdf cfgFull pdfFile "q" (UpstreamResult.resp ⟨200, "", [], twoCandidates⟩)).2
      = SolvePdfResult.ok true "A" "gemini-1.5-flash" 0
    ∧ allCandidatesAnswer twoCandidates = "A\nB"
    ∧ extractAnswer twoCandidates ≠ allCandidatesAnswer twoCandidates :=
  ⟨rfl, rfl, by decide⟩

/-- C4, amended: for every 200 upstream response, the answer is the
newline-join of the text parts of the FIRST candidate's content.parts
(candidates after the first are ignored). -/
theorem c4_amended_thm (cfg : Config) (file : UploadedFile) (q t : String)
    (bytes : List Nat) (r : GeminiResponse) (c : GeminiCandidate)
    (rest : List GeminiCandidate) (ctn : GeminiContent) (ps : List GeminiPart)
    (hk : cfg.GEMINI_API_KEY ≠ "") (hct : pdfTypeOk file.content_type = true)
    (hc : r.candidates = some (c :: rest)) (hctn : c.content = some ctn)
    (hps : ctn.parts = some ps) :
    (solve_pdf cfg file q (UpstreamResult.resp ⟨200, t, bytes, r⟩)).2
      = SolvePdfResult.ok true
          (String.intercalate "\n" (ps.filterMap (fun p => p.text)))
          "gemini-1.5-flash" (tokensUsed r) := by
  have ha : extractAnswer r
      = String.intercalate "\n" (ps.filterMap (fun p => p.text)) := by
    simp [extractAnswer, hc, hctn, hps]
  simp [solve_pdf, hk, hct, ha]

/-- C4, witness for the amended theorem, at the two-candidate response. -/
theorem c4_witness :
    (solve_pdf cfgFull pdfFile "q" (UpstreamResult.resp ⟨200, "", [], twoCandidates⟩)).2
      = SolvePdfResult.ok true
          (String.intercalate "\n"
            ([(⟨some "A"⟩ : GeminiPart)].filterMap (fun p => p.text)))
          "gemini-1.5-flash" (tokensUsed twoCandidates) :=
  c4_amended_thm cfgFull pdfFile "q" "" [] twoCandidates
    ⟨some ⟨some [⟨some "A"⟩]⟩⟩ [⟨some ⟨some [⟨some "B"⟩]⟩⟩]
    ⟨some [⟨some "A"⟩]⟩ [⟨some "A"⟩]
    (by decide) (by decide) rfl rfl rfl

set_option maxRecDepth 4096 in
/-- C5, counterexample.  For the request with prompt "a red fox", width 512,
height 512, seed 7, the adapted URL is
`...?width=512&height=512&nologo=true&seed=7`: the `&nologo=true` pair sits
between the dimensions and the seed, so the URL does not contain the
claimed contiguous substring `width=512&height=512&seed=7`. -/
theorem c5_counterexample :
    image_url c5req
      = "https://image.pollinations.ai/prompt/a%20red%20fox?width=512&height=512&nologo=true&seed=7"
    ∧ containsSub "width=512&height=512&seed=7".data (image_url c5req).data = false :=
  ⟨rfl, by decide⟩

set_option maxRecDepth 4096 in
/-- C5, amended: the adapted URL contains the contiguous substring
`width=512&height=512&nologo=true&seed=7` (dimensions and seed are present,
separated by the fixed `nologo` pair), and a 200 upstream response is
returned with declared media type `image/png`. -/
theorem c5_amended_thm :
    containsSub "width=512&height=512&nologo=true&seed=7".data (image_url c5req).data = true
    ∧ generate_image c5req (UpstreamResult.resp ⟨200, "", [137, 80], ()⟩)
      = ([Effect.httpGet (image_url c5req) []],
         BinaryResult.stream [137, 80] "image/png" "generated_image.png") :=
  ⟨by decide, rfl⟩

/-- C6: the image-generation adapter is deterministic — for any two equal
requests carrying an explicit seed, the adapted outbound URLs coincide. -/
theorem c6_adapter_deterministic (r₁ r₂ : ImageGenerationRequest) (s : Int)
    (_hseed : r₁.seed = some s) (heq : r₁ = r₂) :
    image_url r₁ = image_url r₂ := by
  subst heq; rfl

/-- C6, witness at the explicit-seed request. -/
theorem c6_witness : image_url c5req = image_url c5req :=
  c6_adapter_deterministic c5req c5req 7 rfl rfl

/-- C7, counterexample.  With no screenshot credential configured the
handler does fall back to the demo provider (the outbound GET goes to
`shot.screenshotapi.net` with token `DEMO_TOKEN`), but the handler body
contains no logging statement, so the log trace is empty — the fallback is
silent, refuting "explicit and logged". -/
theorem c7_counterexample :
    (capture_screenshot cfgUnset sreq0 UpstreamResult.timeout).1 = []
    ∧ (capture_screenshot cfgUnset sreq0 UpstreamResult.timeout).2.1
        = [Effect.httpGet "https://shot.screenshotapi.net/screenshot"
            [("token", "DEMO_TOKEN"), ("url", "https://example.com/"),
             ("width", "1920"), ("height", "1080"),
             ("output", "image"), ("file_type", "png")]] :=
  ⟨rfl, rfl⟩

/-- C7, amended: for every screenshot request, when no screenshot-provider
credential is configured the adapter falls back to the unauthenticated demo
provider (`shot.screenshotapi.net`, token `DEMO_TOKEN`), but the fallback is
NOT logged: the handler emits no log message. -/
theorem c7_amended_thm (cfg : Config) (req : ScreenshotRequest)
    (up : UpstreamResult Unit) (hk : cfg.SCREENSHOTONE_KEY = "") :
    (capture_screenshot cfg req up).1 = []
    ∧ (capture_screenshot cfg req up).2.1
        = [Effect.httpGet "https://shot.screenshotapi.net/screenshot"
            [("token", "DEMO_TOKEN"), ("url", req.url),
             ("width", toString req.width), ("height", toString req.height),
             ("output", "image"), ("file_type", "png")]] := by
  cases up <;> simp [capture_screenshot, screenshotRequestParams, hk]

/-- C7, witness for the amended theorem. -/
theorem c7_witness :
    (capture_screenshot cfgUnset sreq0 UpstreamResult.timeout).1 = []
    ∧ (capture_screenshot cfgUnset sreq0 UpstreamResult.timeout).2.1
        = [Effect.httpGet "https://shot.screenshotapi.net/screenshot"
            [("token", "DEMO_TOKEN"), ("url", sreq0.url),
             ("width", toString sreq0.width), ("height", toString sreq0.height),
             ("output", "image"), ("file_type", "png")]] :=
  c7_amended_thm cfgUnset sreq0 UpstreamResult.timeout rfl

/-- C8: for every solve-pdf request whose upload does not declare a PDF MIME
type (with the Gemini credential configured, so that the earlier credential
check does not fire first), the handler fails with status 400 and detail
"File must be a PDF", and the effect trace is empty — in particular the
file's contents are never read. -/
theorem c8_pdf_type_validation (cfg : Config) (file : UploadedFile) (q : String)
    (up : UpstreamResult GeminiResponse) (hk : cfg.GEMINI_API_KEY ≠ "")
    (hct : pdfTypeOk file.content_type = false) :
    solve_pdf cfg file q up = ([], .error 400 "File must be a PDF")
    ∧ Effect.readFile ∉ (solve_pdf cfg file q up).1 := by
  have h : solve_pdf cfg file q up = ([], .error 400 "File must be a PDF") := by
    simp [solve_pdf, hk, hct]
  refine ⟨h, ?_⟩
  rw [h]
  simp

/-- C8, witness at a `image/png`-typed upload. -/
theorem c8_witness :
    solve_pdf cfgFull pngFile "q" UpstreamResult.timeout
      = ([], .error 400 "File must be a PDF")
    ∧ Effect.readFile ∉ (solve_pdf cfgFull pngFile "q" UpstreamResult.timeout).1 :=
  c8_pdf_type_validation cfgFull pngFile "q" UpstreamResult.timeout
    (by decide) (by decide)

/-- C9: a request with seed 0 adapts to exactly the same outbound URL as the
same request with no seed at all (`if request.seed` is falsy for 0), and the
seed query fragment for seed 0 is empty — so reproducibility via seed is
unavailable for the value 0. -/
theorem c9_seed_zero (prompt : String) (w h : Int) (m : String) :
    image_url ⟨prompt, w, h, some 0, m⟩ = image_url ⟨prompt, w, h, none, m⟩
    ∧ seed_param (some 0) = "" :=
  ⟨rfl, rfl⟩

/-- C10: the prompt encoding of the image adapter replaces exactly the space
characters by `"%20"` and passes every other character (including `&`, `?`,
`#`) through verbatim: it coincides with the character-wise space-only
percent-encoder. -/
theorem c10_space_only_encoding (p : String) :
    encoded_prompt p = spaceOnlyPercentEncode p :=
  congrArg String.mk (pyReplaceGo_space p.data)

end NanobotWorker
